import Mathlib

/-!
Shallow embedding of the ThothMind Phase 2 trading strategy core
(`src/strategy.py`) in Lean 4, together with theorems settling the
frozen specification claims.

Modelling conventions:
* Python numbers (floats and ints) are modelled as `ℚ` and `ℤ`/`ℕ`
  with exact arithmetic; the decimal literals of the source
  (0.6, 0.8, 1.1, 1.2, 1.5, 0.2, -2.5, ...) become the corresponding
  rationals.
* Python dict lookups with `.get(key, default)` become `Option`
  fields read with `Option.getD`; a bare `dict[key]` subscript that
  can raise `KeyError`, and a division that can raise
  `ZeroDivisionError`, are modelled in `Except PyErr`.
* Candles are OHLCV rows accessed only at the close (index 4) and
  volume (index 5) positions, so they are modelled as records with a
  `close` and a `volume` field.
* `np.std` takes a square root, which is irrational over `ℚ`; the
  square-root function is therefore a parameter `sq : ℚ → ℚ` threaded
  through `calculate_volatility` and its callers.  No claim depends on
  the numeric value of the volatility of an analysed ticker.
-/

attribute [local semireducible] Rat.add Rat.sub Rat.mul Rat.inv

deriving instance DecidableEq for Except

set_option maxRecDepth 10000

/-- Errors a Python evaluation of the strategy core can raise. -/
inductive PyErr where
  | keyError
  | zeroDivision
deriving DecidableEq, Repr

/-- One OHLCV candle; the strategy reads the close (index 4) and the
volume (index 5). -/
structure Candle where
  close : ℚ
  volume : ℚ
deriving DecidableEq, Repr

/-- Per-ticker entry of the snapshot's `market_data` dict; the
`change_24h_pct` key may be absent (the source reads it with a bare
subscript, which then raises `KeyError`). -/
structure MarketInfo where
  change_24h_pct : Option ℚ
deriving DecidableEq, Repr

/-- The snapshot's `account` dict; `balance` may be missing. -/
structure AccountD where
  balance : Option ℚ
deriving DecidableEq, Repr

/-- The snapshot's `position` dict with the optional fields the
strategy reads via `.get`. -/
structure PositionD where
  is_open : Option Bool := none
  unrealized_pnl_pct : Option ℚ := none
  leverage : Option ℚ := none
  entry_time : Option String := none
deriving DecidableEq, Repr

/-- One input snapshot of `decide_action`; every field the source
reads with `data.get(...)` is optional.  The `day` field is carried by
the collaborator's payloads but is never read by `decide_action`. -/
structure Snapshot where
  position : Option PositionD := none
  account : Option AccountD := none
  market_data : List (String × MarketInfo) := []
  history : List (String × List Candle) := []
  minutes_remaining : Option ℤ := none
  minute_of_day : Option ℤ := none
  qualifying_tickers : Option (List String) := none
  day : Option ℤ := none
deriving DecidableEq, Repr

/-- The module-level `daily_state` dict of `strategy.py`. -/
structure DailyState where
  trades_today : ℕ
  max_daily_trades : ℕ
  balance_at_start : ℚ
  peak_balance : ℚ
  profit_locked : Bool
  consecutive_losses : ℕ
  consecutive_wins : ℕ
  last_trade_minute : ℤ
  winning_trades : List ℚ
  losing_trades : List ℚ
deriving DecidableEq, Repr

/-- Initial value of the module-level `daily_state` dict. -/
def daily_state : DailyState :=
  { trades_today := 0
    max_daily_trades := 30
    balance_at_start := 1000
    peak_balance := 1000
    profit_locked := false
    consecutive_losses := 0
    consecutive_wins := 0
    last_trade_minute := -999
    winning_trades := []
    losing_trades := [] }

/-- The `reset_daily_state` function: overwrites every field except
`max_daily_trades`, which the source never touches. -/
def reset_daily_state (s : DailyState) (initial_balance : ℚ := 1000) : DailyState :=
  { s with
    trades_today := 0
    balance_at_start := initial_balance
    peak_balance := initial_balance
    profit_locked := false
    consecutive_losses := 0
    consecutive_wins := 0
    last_trade_minute := -999
    winning_trades := []
    losing_trades := [] }

/-- Result dict of `calculate_trend_strength`.  The short-history and
no-trend early returns of the source omit the `trends` key; nothing
downstream reads it, and it is modelled as `[]` there. -/
structure TrendInfo where
  direction : ℤ
  strength : ℚ
  aligned : Bool
  trends : List ℚ
deriving DecidableEq, Repr

/-- Result dict of `calculate_volume_trend`.  The early return of the
source omits `strong_increase`; nothing downstream reads it, and it is
modelled as `false` there.  The ratio field is named `ratioQ`. -/
structure VolumeInfo where
  ratioQ : ℚ
  increasing : Bool
  strong_increase : Bool
deriving DecidableEq, Repr

/-- Direction of a candidate entry. -/
inductive TradeDir where
  | LONG
  | SHORT
deriving DecidableEq, Repr

/-- Analysis dict produced by `analyze_ticker`. -/
structure TickerAnalysis where
  ticker : String
  score : ℚ
  change_24h : ℚ
  rsi : ℚ
  trend : TrendInfo
  volume : VolumeInfo
  volatility : ℚ
  direction : TradeDir
deriving DecidableEq, Repr

/-- Python truthiness of `position.get("is_open")` after
`data.get("position", {})`. -/
def posOpen (p : Option PositionD) : Bool :=
  match p with
  | none => false
  | some q => q.is_open.getD false

/-- The balance read `data.get("account", {}).get("balance", 1000)`. -/
def snapBalance (d : Snapshot) : ℚ :=
  ((d.account.getD { balance := none }).balance).getD 1000

/-- Python `int()` truncation toward zero on a rational. -/
def py_int (q : ℚ) : ℤ :=
  if q < 0 then -Int.floor (-q) else Int.floor q

/-- Consecutive differences `closes[i] - closes[i-1]`. -/
def diffs : List ℚ → List ℚ
  | a :: b :: t => (b - a) :: diffs (b :: t)
  | _ => []

/-- Simple returns `(closes[i] - closes[i-1]) / closes[i-1]`, skipping
steps whose previous close is zero, as the source's loop does. -/
def rets : List ℚ → List ℚ
  | a :: b :: t => if a ≠ 0 then (b - a) / a :: rets (b :: t) else rets (b :: t)
  | _ => []

/-- The `calculate_rsi` function: simple-mean RSI over the last
`period+1` closes, neutral 50 on short history, 100 when the average
loss is zero. -/
def calculate_rsi (candles : List Candle) (period : ℕ := 14) : ℚ :=
  if candles.length < period + 1 then 50
  else
    let closes := (candles.drop (candles.length - (period + 1))).map Candle.close
    let changes := diffs closes
    let gains := changes.map (fun c => if 0 < c then c else 0)
    let losses := changes.map (fun c => if 0 < c then 0 else |c|)
    let avg_gain := if gains.isEmpty then 0 else gains.sum / (period : ℚ)
    let avg_loss := if losses.isEmpty then 0 else losses.sum / (period : ℚ)
    if avg_loss = 0 then 100
    else
      let rs := avg_gain / avg_loss
      100 - 100 / (1 + rs)

/-- The `calculate_trend_strength` function over trailing windows.
The guard `start_price != 0` of the source is modelled by filtering;
a window is also skipped when it is empty (only possible for a zero
period, which no caller passes). -/
def calculate_trend_strength (candles : List Candle)
    (periods : List ℕ := [15, 30, 60]) : TrendInfo :=
  if candles.length < periods.foldr max 0 then
    { direction := 0, strength := 0, aligned := false, trends := [] }
  else
    let trends := periods.filterMap (fun period =>
      if period ≤ candles.length then
        let recent := candles.drop (candles.length - period)
        let start_price := ((recent.head?).getD { close := 0, volume := 0 }).close
        let end_price := ((recent.getLast?).getD { close := 0, volume := 0 }).close
        if start_price ≠ 0 then some ((end_price - start_price) / start_price * 100)
        else none
      else none)
    if trends.isEmpty then
      { direction := 0, strength := 0, aligned := false, trends := [] }
    else
      let all_positive := trends.all (fun t => decide (0 < t))
      let all_negative := trends.all (fun t => decide (t < 0))
      let aligned := all_positive || all_negative
      let direction : ℤ := if all_positive then 1 else if all_negative then -1 else 0
      let strength := (trends.map (fun t => |t|)).sum / (trends.length : ℚ)
      { direction := direction, strength := strength, aligned := aligned, trends := trends }

/-- The `calculate_volume_trend` function: summed volume of the last
`period` bars against the `period` bars before them. -/
def calculate_volume_trend (candles : List Candle) (period : ℕ := 30) : VolumeInfo :=
  if candles.length < period * 2 then
    { ratioQ := 1, increasing := false, strong_increase := false }
  else
    let recent_volume := ((candles.drop (candles.length - period)).map Candle.volume).sum
    let older_volume := (((candles.drop (candles.length - 2 * period)).take period).map Candle.volume).sum
    if older_volume = 0 then
      { ratioQ := 1, increasing := false, strong_increase := false }
    else
      let r := recent_volume / older_volume
      { ratioQ := r, increasing := decide ((6 : ℚ) / 5 < r), strong_increase := decide ((3 : ℚ) / 2 < r) }

/-- The `calculate_volatility` function: population standard deviation
of simple returns over the trailing `period` closes, as a percentage.
The square root of `np.std` is the parameter `sq`. -/
def calculate_volatility (sq : ℚ → ℚ) (candles : List Candle) (period : ℕ := 30) : ℚ :=
  if candles.length < period then 0
  else
    let closes := (candles.drop (candles.length - period)).map Candle.close
    let returns := rets closes
    if returns.isEmpty then 0
    else
      let m := returns.sum / (returns.length : ℚ)
      let v := (returns.map (fun r => (r - m) * (r - m))).sum / (returns.length : ℚ)
      sq v * 100

/-- The filter-and-score body of `analyze_ticker`, run once the
history is long enough and the change_24h_pct key has been read:
pure screening filters and the composite score. -/
def analyze_scored (sq : ℚ → ℚ) (ticker : String) (change_24h : ℚ)
    (candles : List Candle) : Option TickerAnalysis :=
  if |change_24h| < 20 then none
  else if 100 < |change_24h| then none
  else
    let rsi := calculate_rsi candles 14
    let trend := calculate_trend_strength candles [15, 30, 60]
    let volume := calculate_volume_trend candles 30
    let volatility := calculate_volatility sq candles 30
    if trend.aligned = false then none
    else if 0 < change_24h ∧ trend.direction < 0 then none
    else if change_24h < 0 ∧ 0 < trend.direction then none
    else if volume.ratioQ < 4 / 5 then none
    else if 0 < change_24h ∧ (80 < rsi ∨ rsi < 40) then none
    else if ¬ 0 < change_24h ∧ (rsi < 20 ∨ 60 < rsi) then none
    else
      let momentum_score := |change_24h| * (2 / 5)
      let trend_score := trend.strength * (3 / 10)
      let volume_score := min volume.ratioQ 2 * 10 * (1 / 5)
      let rsi_score := (50 - |rsi - 50|) * (1 / 10)
      let total_score := momentum_score + trend_score + volume_score + rsi_score
      some
        { ticker := ticker
          score := total_score
          change_24h := change_24h
          rsi := rsi
          trend := trend
          volume := volume
          volatility := volatility
          direction := if 0 < change_24h then .LONG else .SHORT }

/-- The `analyze_ticker` function: history-length gate, then the bare
subscript `info["change_24h_pct"]` (which raises `KeyError` when the
key is absent), then the pure filter-and-score body. -/
def analyze_ticker (sq : ℚ → ℚ) (ticker : String) (info : MarketInfo)
    (history : List (String × List Candle)) : Except PyErr (Option TickerAnalysis) :=
  let candles := (history.lookup ticker).getD []
  if candles.length < 60 then .ok none
  else
    match info.change_24h_pct with
    | none => .error .keyError
    | some change_24h => .ok (analyze_scored sq ticker change_24h candles)

/-- The candidate-collection loop of `select_best_entry`: analyse each
qualifying ticker present in `market_data`, in iteration order,
keeping the survivors; an analysis error aborts the whole call. -/
def gatherCandidates (sq : ℚ → ℚ) (market_data : List (String × MarketInfo))
    (qualifying : List String) (history : List (String × List Candle)) :
    Except PyErr (List TickerAnalysis) :=
  match qualifying with
  | [] => .ok []
  | t :: rest =>
    match market_data.lookup t with
    | none => gatherCandidates sq market_data rest history
    | some info =>
      match analyze_ticker sq t info history with
      | .error e => .error e
      | .ok none => gatherCandidates sq market_data rest history
      | .ok (some a) =>
        match gatherCandidates sq market_data rest history with
        | .error e => .error e
        | .ok l => .ok (a :: l)

/-- Python `max(candidates, key=lambda x: x["score"])` on a nonempty
list: the first element of maximal score wins (replacement only on a
strictly greater score). -/
def maxByScore (c : TickerAnalysis) (rest : List TickerAnalysis) : TickerAnalysis :=
  rest.foldl (fun b x => if b.score < x.score then x else b) c

/-- The `select_best_entry` function: best surviving candidate, none
when no candidate survives or the best score is below 15. -/
def select_best_entry (sq : ℚ → ℚ) (market_data : List (String × MarketInfo))
    (qualifying : List String) (history : List (String × List Candle)) :
    Except PyErr (Option TickerAnalysis) :=
  match gatherCandidates sq market_data qualifying history with
  | .error e => .error e
  | .ok [] => .ok none
  | .ok (c :: rest) =>
    let best := maxByScore c rest
    if best.score < 15 then .ok none else .ok (some best)

/-- The `calculate_position_size` function: volatility/momentum band,
then the loss-streak, drawdown and win-streak modifiers in source
order.  The drawdown division raises on a zero start-of-day balance. -/
def calculate_position_size (analysis : TickerAnalysis) (current_balance : ℚ)
    (s : DailyState) : Except PyErr (ℤ × ℤ) :=
  let change_24h := |analysis.change_24h|
  let volatility := analysis.volatility
  let base : ℤ × ℤ :=
    if 80 < change_24h ∨ 8 < volatility then (2, 25)
    else if 60 < change_24h ∨ 6 < volatility then (3, 30)
    else if 40 < change_24h ∨ 4 < volatility then (4, 40)
    else if 25 < change_24h then (5, 50)
    else (6, 60)
  let leverage1 : ℤ := if 2 ≤ s.consecutive_losses then max 2 (base.1 - 1) else base.1
  let size1 : ℤ := if 2 ≤ s.consecutive_losses then py_int ((base.2 : ℚ) * (3 / 5)) else base.2
  if s.balance_at_start = 0 then .error .zeroDivision
  else
    let drawdown := (s.balance_at_start - current_balance) / s.balance_at_start
    let leverage2 : ℤ := if 1 / 5 < drawdown then max 2 (leverage1 - 1) else leverage1
    let size2 : ℤ := if 1 / 5 < drawdown then py_int ((size1 : ℚ) * (1 / 2)) else size1
    let size3 : ℤ := if 2 ≤ s.consecutive_wins then min 100 (py_int ((size2 : ℚ) * (11 / 10))) else size2
    .ok (leverage2, size3)

/-- Reasons returned by `should_close_position`, with the interpolated
pnl of the source's f-strings as a payload. -/
inductive CloseReason where
  | majorProfit (pnl : ℚ)
  | profitTarget (pnl : ℚ)
  | trailingStop
  | stopLoss (pnl : ℚ)
  | earlyExit (pnl : ℚ)
  | holdPosition
deriving DecidableEq, Repr

/-- The `should_close_position` function.  The division
`-15 / leverage` is executed before the flat `-20` override for
leverage at most 3, so a zero leverage raises `ZeroDivisionError`. -/
def should_close_position (position : PositionD)
    (analysis : Option TickerAnalysis := none) : Except PyErr (Bool × CloseReason) :=
  let pnl_pct := position.unrealized_pnl_pct.getD 0
  let leverage := position.leverage.getD 1
  if 15 ≤ pnl_pct then .ok (true, .majorProfit pnl_pct)
  else if 8 ≤ pnl_pct then .ok (true, .profitTarget pnl_pct)
  else if 5 ≤ pnl_pct ∧ pnl_pct < 2 then .ok (true, .trailingStop)
  else if leverage = 0 then .error .zeroDivision
  else
    let stop_loss_pct : ℚ := if leverage ≤ 3 then -20 else -15 / leverage
    if pnl_pct ≤ stop_loss_pct then .ok (true, .stopLoss pnl_pct)
    else if pnl_pct < -3 ∧ stop_loss_pct < pnl_pct then .ok (true, .earlyExit pnl_pct)
    else .ok (false, .holdPosition)

/-- Decision actions of the engine. -/
inductive TradeAction where
  | HOLD
  | CLOSE
  | OPEN_LONG
  | OPEN_SHORT
deriving DecidableEq, Repr

/-- The reason strings of the returned decision dicts, one constructor
per distinct message, carrying the interpolated values the source
formats in. -/
inductive Reason where
  | dailyLossLimitClose
  | dailyLossLimitHold
  | maxTradesClose
  | maxTradesHold
  | coolingOff (minutesLeft : ℤ)
  | drawdownClose
  | marketOpening
  | endOfDayClose
  | endOfDayHold
  | profitLockClose
  | profitLockHold
  | exitClose (r : CloseReason)
  | monitoring (pnl : ℚ)
  | noMarketData
  | noQualifying
  | noValidSetups
  | entrySignal (score rsi vr : ℚ)
deriving DecidableEq, Repr

/-- The decision dict returned by `decide_action`; the ticker,
leverage and size keys are present only on `OPEN_*` decisions. -/
structure Decision where
  action : TradeAction
  reason : Reason
  ticker : Option String := none
  leverage : Option ℤ := none
  size_pct : Option ℤ := none
deriving DecidableEq, Repr

/-- Entry section of `decide_action` (the code after the position
management block): market-data checks, screening, sizing, and the
final `OPEN_*` decision.  Mutates no session state. -/
def entryDecision (sq : ℚ → ℚ) (s : DailyState) (current_balance : ℚ)
    (d : Snapshot) : DailyState × Except PyErr Decision :=
  if d.market_data.isEmpty then (s, .ok { action := .HOLD, reason := .noMarketData })
  else
    let qualifying := d.qualifying_tickers.getD []
    if qualifying.isEmpty then (s, .ok { action := .HOLD, reason := .noQualifying })
    else
      match select_best_entry sq d.market_data qualifying d.history with
      | .error e => (s, .error e)
      | .ok none => (s, .ok { action := .HOLD, reason := .noValidSetups })
      | .ok (some entry) =>
        match calculate_position_size entry current_balance s with
        | .error e => (s, .error e)
        | .ok (leverage, size_pct) =>
          (s, .ok
            { action := if entry.direction = .LONG then .OPEN_LONG else .OPEN_SHORT
              reason := .entrySignal entry.score entry.rsi entry.volume.ratioQ
              ticker := some entry.ticker
              leverage := some leverage
              size_pct := some size_pct })

/-- Position-management section of `decide_action` for an open
position: exit evaluation and, on a close, the streak/trade-counter
updates of the source. -/
def positionManagement (s : DailyState) (p : PositionD) (minute_of_day : ℤ) :
    DailyState × Except PyErr Decision :=
  match should_close_position p none with
  | .error e => (s, .error e)
  | .ok (true, r) =>
    let pnl_pct := p.unrealized_pnl_pct.getD 0
    let s1 :=
      if 0 < pnl_pct then
        { s with
          consecutive_wins := s.consecutive_wins + 1
          consecutive_losses := 0
          winning_trades := s.winning_trades ++ [pnl_pct] }
      else
        { s with
          consecutive_losses := s.consecutive_losses + 1
          consecutive_wins := 0
          losing_trades := s.losing_trades ++ [pnl_pct] }
    let s2 := { s1 with trades_today := s1.trades_today + 1, last_trade_minute := minute_of_day }
    (s2, .ok { action := .CLOSE, reason := .exitClose r })
  | .ok (false, _) =>
    (s, .ok { action := .HOLD, reason := .monitoring (p.unrealized_pnl_pct.getD 0) })

/-- Circuit breakers CB5-CB7 (drawdown-from-peak, session-open delay,
end-of-day buffer, profit-lock throttle) followed by position
management or the entry section, exactly as the source orders them. -/
def decideRest (sq : ℚ → ℚ) (s : DailyState) (position : Option PositionD)
    (current_balance : ℚ) (minutes_left minute_of_day : ℤ)
    (d : Snapshot) : DailyState × Except PyErr Decision :=
  if s.peak_balance = 0 then (s, .error .zeroDivision)
  else
    let drawdown_from_peak := (s.peak_balance - current_balance) / s.peak_balance * 100
    if 25 < drawdown_from_peak ∧ posOpen position = true then
      (s, .ok { action := .CLOSE, reason := .drawdownClose })
    else if minute_of_day < 30 then
      (s, .ok { action := .HOLD, reason := .marketOpening })
    else if minutes_left < 45 then
      (s, .ok (if posOpen position then { action := .CLOSE, reason := .endOfDayClose }
               else { action := .HOLD, reason := .endOfDayHold }))
    else if s.profit_locked = true ∧ 15 ≤ s.trades_today then
      (s, .ok (if posOpen position then { action := .CLOSE, reason := .profitLockClose }
               else { action := .HOLD, reason := .profitLockHold }))
    else
      match position with
      | some p =>
        if p.is_open.getD false then positionManagement s p minute_of_day
        else entryDecision sq s current_balance d
      | none => entryDecision sq s current_balance d

/-- Peak-balance tracking of `decide_action`: raise `peak_balance`
when the current balance exceeds it. -/
def update_peak (s : DailyState) (current_balance : ℚ) : DailyState :=
  if s.peak_balance < current_balance then { s with peak_balance := current_balance } else s

/-- CB2 of `decide_action`: arm the profit lock when the intraday gain
exceeds 40% and it is not armed yet. -/
def arm_profit_lock (s : DailyState) (loss_pct : ℚ) : DailyState :=
  if 40 < loss_pct ∧ s.profit_locked = false then { s with profit_locked := true } else s

/-- The fall-through arm of CB4: once the cooldown has elapsed, a
loss streak of at least 3 is reset to 0. -/
def expire_cooldown (s : DailyState) : DailyState :=
  if 3 ≤ s.consecutive_losses then { s with consecutive_losses := 0 } else s

/-- The `decide_action` function: peak-balance update, circuit
breakers CB1-CB4 in order, then `decideRest`.  Returns the mutated
session state together with the decision (or the Python exception the
call would raise). -/
def decide_action (sq : ℚ → ℚ) (s : DailyState) (d : Snapshot) :
    DailyState × Except PyErr Decision :=
  let position := d.position
  let current_balance := snapBalance d
  let minutes_left := d.minutes_remaining.getD 0
  let minute_of_day := d.minute_of_day.getD 0
  let s1 := update_peak s current_balance
  if s1.balance_at_start = 0 then (s1, .error .zeroDivision)
  else
    let loss_pct := (current_balance - s1.balance_at_start) / s1.balance_at_start * 100
    if loss_pct < -40 then
      (s1, .ok (if posOpen position then { action := .CLOSE, reason := .dailyLossLimitClose }
                else { action := .HOLD, reason := .dailyLossLimitHold }))
    else
      let s2 := arm_profit_lock s1 loss_pct
      if s2.max_daily_trades ≤ s2.trades_today then
        (s2, .ok (if posOpen position then { action := .CLOSE, reason := .maxTradesClose }
                  else { action := .HOLD, reason := .maxTradesHold }))
      else if 3 ≤ s2.consecutive_losses ∧ minute_of_day - s2.last_trade_minute < 30 then
        (s2, .ok { action := .HOLD, reason := .coolingOff (30 - (minute_of_day - s2.last_trade_minute)) })
      else
        decideRest sq (expire_cooldown s2) position current_balance minutes_left minute_of_day d

/-- Projection lemmas: each state-update step preserves every field
other than the one it updates. -/
@[simp]
theorem update_peak_trades_today (s : DailyState) (b : ℚ) :
    (update_peak s b).trades_today = s.trades_today := by
  unfold update_peak
  split <;> rfl

@[simp]
theorem update_peak_max_daily_trades (s : DailyState) (b : ℚ) :
    (update_peak s b).max_daily_trades = s.max_daily_trades := by
  unfold update_peak
  split <;> rfl

@[simp]
theorem update_peak_balance_at_start (s : DailyState) (b : ℚ) :
    (update_peak s b).balance_at_start = s.balance_at_start := by
  unfold update_peak
  split <;> rfl

@[simp]
theorem update_peak_profit_locked (s : DailyState) (b : ℚ) :
    (update_peak s b).profit_locked = s.profit_locked := by
  unfold update_peak
  split <;> rfl

@[simp]
theorem update_peak_consecutive_losses (s : DailyState) (b : ℚ) :
    (update_peak s b).consecutive_losses = s.consecutive_losses := by
  unfold update_peak
  split <;> rfl

@[simp]
theorem update_peak_consecutive_wins (s : DailyState) (b : ℚ) :
    (update_peak s b).consecutive_wins = s.consecutive_wins := by
  unfold update_peak
  split <;> rfl

@[simp]
theorem update_peak_last_trade_minute (s : DailyState) (b : ℚ) :
    (update_peak s b).last_trade_minute = s.last_trade_minute := by
  unfold update_peak
  split <;> rfl

@[simp]
theorem update_peak_winning_trades (s : DailyState) (b : ℚ) :
    (update_peak s b).winning_trades = s.winning_trades := by
  unfold update_peak
  split <;> rfl

@[simp]
theorem update_peak_losing_trades (s : DailyState) (b : ℚ) :
    (update_peak s b).losing_trades = s.losing_trades := by
  unfold update_peak
  split <;> rfl

@[simp]
theorem arm_profit_lock_trades_today (s : DailyState) (l : ℚ) :
    (arm_profit_lock s l).trades_today = s.trades_today := by
  unfold arm_profit_lock
  split <;> rfl

@[simp]
theorem arm_profit_lock_max_daily_trades (s : DailyState) (l : ℚ) :
    (arm_profit_lock s l).max_daily_trades = s.max_daily_trades := by
  unfold arm_profit_lock
  split <;> rfl

@[simp]
theorem arm_profit_lock_balance_at_start (s : DailyState) (l : ℚ) :
    (arm_profit_lock s l).balance_at_start = s.balance_at_start := by
  unfold arm_profit_lock
  split <;> rfl

@[simp]
theorem arm_profit_lock_peak_balance (s : DailyState) (l : ℚ) :
    (arm_profit_lock s l).peak_balance = s.peak_balance := by
  unfold arm_profit_lock
  split <;> rfl

@[simp]
theorem arm_profit_lock_consecutive_losses (s : DailyState) (l : ℚ) :
    (arm_profit_lock s l).consecutive_losses = s.consecutive_losses := by
  unfold arm_profit_lock
  split <;> rfl

@[simp]
theorem arm_profit_lock_consecutive_wins (s : DailyState) (l : ℚ) :
    (arm_profit_lock s l).consecutive_wins = s.consecutive_wins := by
  unfold arm_profit_lock
  split <;> rfl

@[simp]
theorem arm_profit_lock_last_trade_minute (s : DailyState) (l : ℚ) :
    (arm_profit_lock s l).last_trade_minute = s.last_trade_minute := by
  unfold arm_profit_lock
  split <;> rfl

@[simp]
theorem arm_profit_lock_winning_trades (s : DailyState) (l : ℚ) :
    (arm_profit_lock s l).winning_trades = s.winning_trades := by
  unfold arm_profit_lock
  split <;> rfl

@[simp]
theorem arm_profit_lock_losing_trades (s : DailyState) (l : ℚ) :
    (arm_profit_lock s l).losing_trades = s.losing_trades := by
  unfold arm_profit_lock
  split <;> rfl

@[simp]
theorem expire_cooldown_trades_today (s : DailyState) :
    (expire_cooldown s).trades_today = s.trades_today := by
  unfold expire_cooldown
  split <;> rfl

@[simp]
theorem expire_cooldown_max_daily_trades (s : DailyState) :
    (expire_cooldown s).max_daily_trades = s.max_daily_trades := by
  unfold expire_cooldown
  split <;> rfl

@[simp]
theorem expire_cooldown_balance_at_start (s : DailyState) :
    (expire_cooldown s).balance_at_start = s.balance_at_start := by
  unfold expire_cooldown
  split <;> rfl

@[simp]
theorem expire_cooldown_peak_balance (s : DailyState) :
    (expire_cooldown s).peak_balance = s.peak_balance := by
  unfold expire_cooldown
  split <;> rfl

@[simp]
theorem expire_cooldown_profit_locked (s : DailyState) :
    (expire_cooldown s).profit_locked = s.profit_locked := by
  unfold expire_cooldown
  split <;> rfl

@[simp]
theorem expire_cooldown_consecutive_wins (s : DailyState) :
    (expire_cooldown s).consecutive_wins = s.consecutive_wins := by
  unfold expire_cooldown
  split <;> rfl

@[simp]
theorem expire_cooldown_last_trade_minute (s : DailyState) :
    (expire_cooldown s).last_trade_minute = s.last_trade_minute := by
  unfold expire_cooldown
  split <;> rfl

@[simp]
theorem expire_cooldown_winning_trades (s : DailyState) :
    (expire_cooldown s).winning_trades = s.winning_trades := by
  unfold expire_cooldown
  split <;> rfl

@[simp]
theorem expire_cooldown_losing_trades (s : DailyState) :
    (expire_cooldown s).losing_trades = s.losing_trades := by
  unfold expire_cooldown
  split <;> rfl

/-! ## Exit evaluator claims (C4, C10) -/

/-- Helper: whether an exit-evaluator result is the
"early exit on small loss" close. -/
def earlyExitResult : Except PyErr (Bool × CloseReason) → Bool
  | .ok (_, .earlyExit _) => true
  | _ => false

/-- An open-position dict with leverage 0: the claim's flat −20
stop-loss band nominally applies (0 ≤ 3) and the pnl −25 is at or
below it, so the claim predicts a stop-loss close. -/
def c4pos : PositionD :=
  { is_open := some true, unrealized_pnl_pct := some (-25), leverage := some 0 }

/-- C4 counterexample: at leverage 0 and pnl −25 the exit evaluator
does not return the claimed stop-loss close; the source raises
`ZeroDivisionError` computing `-15 / leverage` before the flat −20
override for leverage ≤ 3 is applied. -/
theorem c4_counterexample :
    should_close_position c4pos none = .error .zeroDivision := by
  decide

/-- C4 (amended): for every position dict with nonzero (defaulted)
leverage, `should_close_position` returns the stop-loss close whenever
the unrealized pnl percentage is at or below the stop threshold, the
threshold being a flat −20 for leverage ≤ 3 and −15/leverage
otherwise. -/
theorem c4_stop_loss (p : PositionD)
    (hlev : p.leverage.getD 1 ≠ 0)
    (hpnl : p.unrealized_pnl_pct.getD 0 ≤
      (if p.leverage.getD 1 ≤ 3 then (-20 : ℚ) else -15 / p.leverage.getD 1)) :
    should_close_position p none = .ok (true, .stopLoss (p.unrealized_pnl_pct.getD 0)) := by
  have hstop : (if p.leverage.getD 1 ≤ 3 then (-20 : ℚ) else -15 / p.leverage.getD 1) < 0 := by
    split
    · norm_num
    · next h =>
      exact div_neg_of_neg_of_pos (by norm_num) (by linarith [not_le.mp h])
  unfold should_close_position
  dsimp only
  split_ifs with h1 h2 h3
  · exact absurd h1 (by linarith)
  · exact absurd h2 (by linarith)
  · exact absurd h3.1 (by linarith)
  · rfl

/-- C4 witness: leverage 6 and pnl −25 ≤ −15/6 yields the stop-loss
close. -/
theorem c4_stop_loss_witness :
    should_close_position
      { is_open := some true, unrealized_pnl_pct := some (-25), leverage := some 6 }
      none = .ok (true, .stopLoss (-25)) :=
  c4_stop_loss _ (by decide) (by decide)

/-- C10: for every position dict whose (defaulted) leverage is at
least 5, `should_close_position` never returns the "early exit on
small loss" close: the stop threshold −15/leverage is then at least
−3, so any pnl below −3 already triggers the stop-loss branch and the
early-exit band is empty. -/
theorem c10_no_early_exit (p : PositionD) (hlev : 5 ≤ p.leverage.getD 1) :
    earlyExitResult (should_close_position p none) = false := by
  have hlevpos : (0 : ℚ) < p.leverage.getD 1 := by linarith
  have hdiv : 15 / p.leverage.getD 1 ≤ 3 := by
    rw [div_le_iff₀ hlevpos]; linarith
  have hstop : (-3 : ℚ) ≤ -15 / p.leverage.getD 1 := by
    rw [neg_div]; linarith
  have hnotle3 : ¬ p.leverage.getD 1 ≤ 3 := by linarith
  unfold should_close_position
  dsimp only
  split_ifs with h1 h2 h3 h4 h5 h6 <;>
    first
      | rfl
      | (exfalso; linarith [h6.1, h6.2])

/-- C10 witness: a leverage-6 position at pnl −2 is not an early-exit
close. -/
theorem c10_no_early_exit_witness :
    earlyExitResult (should_close_position
      { is_open := some true, unrealized_pnl_pct := some (-2), leverage := some 6 }
      none) = false :=
  c10_no_early_exit _ (by decide)

/-! ## Position sizer claim (C3) -/

/-- A candidate analysis in the least aggressive band: |change| = 22
(at most 25) and volatility 0, so the base band is leverage 6,
size 60. -/
def c3analysis : TickerAnalysis :=
  { ticker := "A"
    score := 20
    change_24h := 22
    rsi := 50
    trend := { direction := 1, strength := 30, aligned := true, trends := [] }
    volume := { ratioQ := 1, increasing := false, strong_increase := false }
    volatility := 0
    direction := .LONG }

/-- Session state on a two-loss streak with no drawdown and no win
streak. -/
def c3state : DailyState := { daily_state with consecutive_losses := 2 }

/-- C3 counterexample: with base band (6, 60), two consecutive losses
and zero drawdown, the sizer returns size 36 = int(60 × 0.6), not the
claimed half 30 = int(60 × 0.5); the leverage decrement to 5 does
match the claim. -/
theorem c3_counterexample :
    calculate_position_size c3analysis 1000 c3state = .ok (5, 36) ∧
      (36 : ℤ) ≠ py_int ((60 : ℚ) / 2) := by
  decide

/-- C3 (amended): when the base band for the candidate is
(`bl`, `bs`) (obtained by sizing with a neutral session state), a
session state with exactly 2 consecutive losses, fewer than 2
consecutive wins and zero drawdown from the start-of-day balance
yields size int(`bs` × 0.6) — not half — and leverage `bl` − 1 floored
at 2. -/
theorem c3_loss_streak_sizing (a : TickerAnalysis) (b : ℚ) (s : DailyState) (bl bs : ℤ)
    (hb : b ≠ 0)
    (hbase : calculate_position_size a b { daily_state with balance_at_start := b } = .ok (bl, bs))
    (hl : s.consecutive_losses = 2)
    (hw : s.consecutive_wins < 2)
    (hs : s.balance_at_start = b) :
    calculate_position_size a b s = .ok (max 2 (bl - 1), py_int ((bs : ℚ) * (3 / 5))) := by
  unfold calculate_position_size at hbase ⊢
  dsimp only at hbase ⊢
  rw [if_neg hb] at hbase
  simp only [daily_state, sub_self, zero_div] at hbase
  norm_num at hbase
  rw [hl, hs]
  rw [if_pos (by norm_num : (2:ℕ) ≤ 2), if_neg hb]
  simp only [sub_self, zero_div]
  rw [if_neg (by norm_num : ¬ (1:ℚ)/5 < 0), if_neg (by omega : ¬ 2 ≤ s.consecutive_wins)]
  rw [hbase]
  norm_num

/-- C3 witness: the amended statement applied at the concrete
band-(6,60) candidate gives leverage 5 and size 36. -/
theorem c3_loss_streak_sizing_witness :
    calculate_position_size c3analysis 1000 c3state =
      .ok (max 2 (6 - 1), py_int ((60 : ℚ) * (3 / 5))) :=
  c3_loss_streak_sizing c3analysis 1000 c3state 6 60 (by norm_num) (by decide)
    (by decide) (by decide) (by decide)

/-! ## Candidate selection claim (C8) -/

/-- Unfolding lemma for the selection fold. -/
theorem maxByScore_cons (c x : TickerAnalysis) (rest : List TickerAnalysis) :
    maxByScore c (x :: rest) = maxByScore (if c.score < x.score then x else c) rest := rfl

/-- The selected analysis is one of the candidates. -/
theorem maxByScore_mem (c : TickerAnalysis) (rest : List TickerAnalysis) :
    maxByScore c rest ∈ c :: rest := by
  induction rest generalizing c with
  | nil => simp [maxByScore]
  | cons x r ih =>
    rw [maxByScore_cons]
    by_cases hcx : c.score < x.score
    · rw [if_pos hcx]
      have h := ih x
      simp only [List.mem_cons] at h ⊢
      tauto
    · rw [if_neg hcx]
      have h := ih c
      simp only [List.mem_cons] at h ⊢
      tauto

/-- The selected analysis has a maximal score among the candidates. -/
theorem maxByScore_le (c : TickerAnalysis) (rest : List TickerAnalysis) :
    ∀ b ∈ c :: rest, b.score ≤ (maxByScore c rest).score := by
  induction rest generalizing c with
  | nil =>
    intro b hb
    rw [List.mem_singleton.mp hb]
    exact le_refl _
  | cons x r ih =>
    intro b hb
    rw [maxByScore_cons]
    have hcle : c.score ≤ (if c.score < x.score then x else c).score := by
      split
      · next h => exact le_of_lt h
      · exact le_refl _
    have hxle : x.score ≤ (if c.score < x.score then x else c).score := by
      split
      · exact le_refl _
      · next h => exact not_lt.mp h
    have hhead := ih (if c.score < x.score then x else c) _ (List.mem_cons_self _ _)
    rcases List.mem_cons.mp hb with rfl | hb'
    · exact le_trans hcle hhead
    · rcases List.mem_cons.mp hb' with rfl | hb'' 
      · exact le_trans hxle hhead
      · exact ih _ b (List.mem_cons_of_mem _ hb'')

/-- The selected analysis is the first candidate of maximal score:
every candidate strictly before it scores strictly less. -/
theorem maxByScore_first (c : TickerAnalysis) (rest : List TickerAnalysis) :
    ∃ l1 l2, c :: rest = l1 ++ maxByScore c rest :: l2 ∧
      ∀ b ∈ l1, b.score < (maxByScore c rest).score := by
  induction rest generalizing c with
  | nil => exact ⟨[], [], rfl, by simp⟩
  | cons x r ih =>
    rw [maxByScore_cons]
    by_cases hcx : c.score < x.score
    · rw [if_pos hcx]
      obtain ⟨l1, l2, heq, hlt⟩ := ih x
      refine ⟨c :: l1, l2, ?_, ?_⟩
      · rw [List.cons_append, ← heq]
      · intro b hb
        rcases List.mem_cons.mp hb with rfl | hb'
        · exact lt_of_lt_of_le hcx (maxByScore_le x r x (List.mem_cons_self _ _))
        · exact hlt b hb'
    · rw [if_neg hcx]
      obtain ⟨l1, l2, heq, hlt⟩ := ih c
      cases l1 with
      | nil =>
        simp only [List.nil_append] at heq
        refine ⟨[], x :: l2, ?_, by simp⟩
        rw [List.nil_append]
        rw [List.cons.injEq] at heq
        rw [← heq.1, List.cons.injEq]
        exact ⟨rfl, by rw [heq.2]⟩
      | cons a l1' =>
        rw [List.cons_append, List.cons.injEq] at heq
        refine ⟨c :: x :: l1', l2, ?_, ?_⟩
        · simp only [List.cons_append]
          conv_lhs => rw [heq.2]
        · intro b hb
          have hc : c.score < (maxByScore c r).score := by
            have := hlt a (List.mem_cons_self _ _)
            rw [← heq.1] at this
            exact this
          rcases List.mem_cons.mp hb with rfl | hb'
          · exact hc
          · rcases List.mem_cons.mp hb' with rfl | hb''
            · exact lt_of_le_of_lt (not_lt.mp hcx) hc
            · exact hlt b (List.mem_cons_of_mem _ hb'')

/-- C8: whenever `select_best_entry` returns a candidate, its score is
at least 15, it is maximal among the surviving candidates (the list
`gatherCandidates` collects in qualifying-ticker iteration order), and
ties are broken in favour of the first-analysed candidate: everything
before it in the survivor list scores strictly less. -/
theorem c8_select_best (sq : ℚ → ℚ) (md : List (String × MarketInfo))
    (qualifying : List String) (hist : List (String × List Candle))
    (cl : List TickerAnalysis) (a : TickerAnalysis)
    (hg : gatherCandidates sq md qualifying hist = .ok cl)
    (hs : select_best_entry sq md qualifying hist = .ok (some a)) :
    15 ≤ a.score ∧ (∀ b ∈ cl, b.score ≤ a.score) ∧
      ∃ l1 l2, cl = l1 ++ a :: l2 ∧ ∀ b ∈ l1, b.score < a.score := by
  unfold select_best_entry at hs
  rw [hg] at hs
  cases cl with
  | nil => simp at hs
  | cons c rest =>
    dsimp only at hs
    split_ifs at hs with h15
    · simp at hs
    · simp only [Except.ok.injEq, Option.some.injEq] at hs
      rw [← hs]
      exact ⟨not_lt.mp h15, maxByScore_le c rest, maxByScore_first c rest⟩

/-- Square-root parameter used for concrete evaluations; the concrete
witnesses never depend on its value. -/
def sqZero : ℚ → ℚ := fun _ => 0

/-- Sixty candles of history: thirty at close 50, fifteen at close 80,
then a rising +3/−1 zig-zag from 100 to 114; all volumes 10. -/
def exCandles : List Candle :=
  List.replicate 30 { close := 50, volume := 10 } ++
  List.replicate 15 { close := 80, volume := 10 } ++
  ([100, 103, 102, 105, 104, 107, 106, 109, 108, 111, 110, 113, 112, 115, 114].map
    (fun c => { close := c, volume := 10 }))

/-- A market-data entry with change_24h_pct 25. -/
def exInfo : MarketInfo := { change_24h_pct := some 25 }

/-- The analysis `analyze_ticker` produces for `exCandles`/`exInfo`:
RSI 75, aligned uptrend of strength 61.5, volume ratio 1, score
32.95. -/
def exAnalysis : TickerAnalysis :=
  { ticker := "A"
    score := 659 / 20
    change_24h := 25
    rsi := 75
    trend := { direction := 1, strength := 123 / 2, aligned := true, trends := [14, 85 / 2, 128] }
    volume := { ratioQ := 1, increasing := false, strong_increase := false }
    volatility := 0
    direction := .LONG }

/-- C8 witness: on the concrete one-ticker market the selection
returns the score-32.95 analysis with the stated properties. -/
theorem c8_select_best_witness :
    15 ≤ exAnalysis.score ∧ (∀ b ∈ [exAnalysis], b.score ≤ exAnalysis.score) ∧
      ∃ l1 l2, [exAnalysis] = l1 ++ exAnalysis :: l2 ∧ ∀ b ∈ l1, b.score < exAnalysis.score :=
  c8_select_best sqZero [("A", exInfo)] ["A"] [("A", exCandles)] [exAnalysis] exAnalysis
    (by decide) (by decide)

/-! ## Day-rollover claim (C2) and breaker-ordering claim (C5) -/

/-- The entry section never mutates session state. -/
theorem entryDecision_fst (sq : ℚ → ℚ) (s : DailyState) (b : ℚ) (d : Snapshot) :
    (entryDecision sq s b d).1 = s := by
  unfold entryDecision
  dsimp only
  split_ifs <;> try rfl
  split <;> try rfl
  split <;> rfl

/-- Position management can only keep or increment the trade count. -/
theorem positionManagement_trades (s : DailyState) (p : PositionD) (m : ℤ) :
    s.trades_today ≤ (positionManagement s p m).1.trades_today := by
  unfold positionManagement
  split
  · exact le_refl _
  · dsimp only
    split <;> exact Nat.le_succ _
  · exact le_refl _

/-- The post-breaker phase can only keep or increment the trade
count. -/
theorem decideRest_trades (sq : ℚ → ℚ) (s : DailyState) (pos : Option PositionD)
    (b : ℚ) (ml md : ℤ) (d : Snapshot) :
    s.trades_today ≤ (decideRest sq s pos b ml md d).1.trades_today := by
  unfold decideRest
  dsimp only
  split_ifs <;> try exact le_refl _
  split
  · split
    · exact positionManagement_trades _ _ _
    · rw [entryDecision_fst]
  · rw [entryDecision_fst]

/-- A whole decision call can only keep or increment the trade
count. -/
theorem decide_action_trades (sq : ℚ → ℚ) (s : DailyState) (d : Snapshot) :
    s.trades_today ≤ ((decide_action sq s d).1).trades_today := by
  unfold decide_action
  dsimp only
  split_ifs <;>
    first
      | (simp; done)
      | exact le_trans (Nat.le_of_eq (by simp)) (decideRest_trades _ _ _ _ _ _ _)

/-- A session state mid-day: 5 trades done, a 2-loss streak. -/
def c2state : DailyState :=
  { daily_state with trades_today := 5, consecutive_losses := 2 }

/-- A snapshot carrying a fresh day identifier (day 2) at minute 10 of
the new day, with no position and a default balance. -/
def c2snap : Snapshot := { minute_of_day := some 10, day := some 2 }

/-- C2 counterexample: a decision call on a snapshot with a new day
identifier does not reinitialize the session state — trades_today
stays 5 and consecutive_losses stays 2 (the call holds through the
market-opening breaker); `decide_action` never reads the day field. -/
theorem c2_counterexample :
    (decide_action sqZero c2state c2snap).1.trades_today = 5 ∧
      (decide_action sqZero c2state c2snap).1.consecutive_losses = 2 ∧
      c2snap.day = some 2 ∧
      (decide_action sqZero c2state c2snap).2 =
        .ok { action := .HOLD, reason := .marketOpening } := by
  decide

/-- C2 (amended): the session state is reinitialized only by the
explicit `reset_daily_state` call (the collaborator's session-start
hook), which zeroes trades_today and consecutive_losses;
`decide_action` itself never resets the trade count, whatever day
identifier the snapshot carries — it can only keep or grow it. -/
theorem c2_reset_only_explicit (sq : ℚ → ℚ) (s : DailyState) (b : ℚ) (d : Snapshot) :
    (reset_daily_state s b).trades_today = 0 ∧
      (reset_daily_state s b).consecutive_losses = 0 ∧
      (0 < s.trades_today → 0 < ((decide_action sq s d).1).trades_today) :=
  ⟨rfl, rfl, fun h => Nat.lt_of_lt_of_le h (decide_action_trades sq s d)⟩

/-- C2 witness: at the mid-day state and day-2 snapshot, the reset
zeroes the counters while the decision call keeps the positive trade
count. -/
theorem c2_reset_only_explicit_witness :
    (reset_daily_state c2state 1000).trades_today = 0 ∧
      (reset_daily_state c2state 1000).consecutive_losses = 0 ∧
      (0 < c2state.trades_today → 0 < ((decide_action sqZero c2state c2snap).1).trades_today) :=
  c2_reset_only_explicit sqZero c2state 1000 c2snap

/-- C5: when the intraday loss percentage is below −40 and the trade
limit is also reached, the decision returned is the daily-loss-limit
one, never the max-trades message. -/
theorem c5_breaker_order (sq : ℚ → ℚ) (s : DailyState) (d : Snapshot)
    (hloss : (snapBalance d - s.balance_at_start) / s.balance_at_start * 100 < -40)
    (htr : s.max_daily_trades ≤ s.trades_today) :
    ∃ dec, (decide_action sq s d).2 = .ok dec ∧
      (dec.reason = .dailyLossLimitClose ∨ dec.reason = .dailyLossLimitHold) ∧
      dec.reason ≠ .maxTradesClose ∧ dec.reason ≠ .maxTradesHold := by
  have hb0 : s.balance_at_start ≠ 0 := by
    intro h
    rw [h, div_zero, zero_mul] at hloss
    norm_num at hloss
  unfold decide_action
  dsimp only
  rw [update_peak_balance_at_start]
  rw [if_neg hb0, if_pos hloss]
  cases hpos : posOpen d.position
  · exact ⟨_, rfl, Or.inr rfl, by decide, by decide⟩
  · exact ⟨_, rfl, Or.inl rfl, by decide, by decide⟩

/-- Session state at the trade limit. -/
def c5state : DailyState := { daily_state with trades_today := 30 }

/-- Snapshot with balance 500: intraday loss −50%. -/
def c5snap : Snapshot := { account := some { balance := some 500 } }

/-- C5 witness: at −50% loss and the trade limit both hit, the
decision is the daily-loss-limit hold, not the max-trades message. -/
theorem c5_breaker_order_witness :
    ∃ dec, (decide_action sqZero c5state c5snap).2 = .ok dec ∧
      (dec.reason = .dailyLossLimitClose ∨ dec.reason = .dailyLossLimitHold) ∧
      dec.reason ≠ .maxTradesClose ∧ dec.reason ≠ .maxTradesHold :=
  c5_breaker_order sqZero c5state c5snap (by decide) (by decide)

/-! ## Streak-exclusivity invariant (C7) -/

/-- At most one of the two streak counters is nonzero. -/
def streaksExclusive (s : DailyState) : Prop :=
  s.consecutive_wins = 0 ∨ s.consecutive_losses = 0

/-- Position management preserves streak exclusivity: a winning close
zeroes the loss streak and a losing close zeroes the win streak. -/
theorem positionManagement_inv (s : DailyState) (p : PositionD) (m : ℤ)
    (h : streaksExclusive s) : streaksExclusive (positionManagement s p m).1 := by
  unfold positionManagement
  split
  · exact h
  · dsimp only
    split
    · exact Or.inr rfl
    · exact Or.inl rfl
  · exact h

/-- The post-breaker phase preserves streak exclusivity. -/
theorem decideRest_inv (sq : ℚ → ℚ) (s : DailyState) (pos : Option PositionD)
    (b : ℚ) (ml md : ℤ) (d : Snapshot)
    (h : streaksExclusive s) : streaksExclusive (decideRest sq s pos b ml md d).1 := by
  unfold decideRest
  dsimp only
  split_ifs <;> try exact h
  split
  · split
    · exact positionManagement_inv _ _ _ h
    · rw [entryDecision_fst]; exact h
  · rw [entryDecision_fst]; exact h

/-- Streak exclusivity transfers along equal streak fields. -/
theorem streaksExclusive_congr (s t : DailyState) (h : streaksExclusive s)
    (hw : t.consecutive_wins = s.consecutive_wins)
    (hl : t.consecutive_losses = s.consecutive_losses) : streaksExclusive t := by
  unfold streaksExclusive at h ⊢
  rw [hw, hl]
  exact h

/-- The cooldown expiry preserves streak exclusivity. -/
theorem streaksExclusive_expire (s : DailyState) (h : streaksExclusive s) :
    streaksExclusive (expire_cooldown s) := by
  unfold streaksExclusive at h ⊢
  unfold expire_cooldown
  split
  · exact Or.inr rfl
  · exact h

/-- A whole decision call preserves streak exclusivity (the cooldown
expiry zeroes only consecutive_losses). -/
theorem decide_action_inv (sq : ℚ → ℚ) (s : DailyState) (d : Snapshot)
    (h : streaksExclusive s) : streaksExclusive (decide_action sq s d).1 := by
  unfold decide_action
  dsimp only
  split_ifs <;>
    first
      | (refine streaksExclusive_congr s _ h ?_ ?_ <;> simp <;> done)
      | (refine decideRest_inv _ _ _ _ _ _ _ (streaksExclusive_expire _ (streaksExclusive_congr s _ h ?_ ?_)) <;> simp <;> done)

/-- Session states reachable from the module-initial `daily_state` by
any sequence of `reset_daily_state` and `decide_action` calls. -/
inductive ReachableState : DailyState → Prop where
  | init : ReachableState daily_state
  | reset (s : DailyState) (b : ℚ) : ReachableState s → ReachableState (reset_daily_state s b)
  | step (sq : ℚ → ℚ) (s : DailyState) (d : Snapshot) :
      ReachableState s → ReachableState (decide_action sq s d).1

/-- C7: in every reachable session state at most one of
consecutive_wins and consecutive_losses is nonzero. -/
theorem c7_streaks_exclusive (s : DailyState) (h : ReachableState s) :
    streaksExclusive s := by
  induction h with
  | init => exact Or.inl rfl
  | reset s b _ _ => exact Or.inl rfl
  | step sq s d _ ih => exact decide_action_inv sq s d ih

/-- C7 witness: the state after one decision call on the initial state
satisfies the invariant. -/
theorem c7_streaks_exclusive_witness :
    streaksExclusive (decide_action sqZero daily_state c2snap).1 :=
  c7_streaks_exclusive _ (ReachableState.step sqZero daily_state c2snap ReachableState.init)

/-! ## Frame-effect claim (C9) -/

/-- The six session-state fields the claim says breaker closes leave
unchanged. -/
def frameEq (s s' : DailyState) : Prop :=
  s'.trades_today = s.trades_today ∧ s'.consecutive_wins = s.consecutive_wins ∧
    s'.consecutive_losses = s.consecutive_losses ∧
    s'.last_trade_minute = s.last_trade_minute ∧
    s'.winning_trades = s.winning_trades ∧ s'.losing_trades = s.losing_trades

/-- The same fields except consecutive_losses. -/
def frameEqExceptLosses (s s' : DailyState) : Prop :=
  s'.trades_today = s.trades_today ∧ s'.consecutive_wins = s.consecutive_wins ∧
    s'.last_trade_minute = s.last_trade_minute ∧
    s'.winning_trades = s.winning_trades ∧ s'.losing_trades = s.losing_trades

/-- The loss streak is unchanged, or was at least 3 and has been
zeroed by the cooldown expiry. -/
def lossesPreservedOrCooldown (s s' : DailyState) : Prop :=
  s'.consecutive_losses = s.consecutive_losses ∨
    (3 ≤ s.consecutive_losses ∧ s'.consecutive_losses = 0)

/-- The five circuit-breaker CLOSE reasons. -/
def isBreakerClose (r : Reason) : Prop :=
  r = .dailyLossLimitClose ∨ r = .maxTradesClose ∨ r = .drawdownClose ∨
    r = .endOfDayClose ∨ r = .profitLockClose

/-- Position management either leaves the state untouched or returns
an exit-evaluator close. -/
theorem positionManagement_char (s : DailyState) (p : PositionD) (m : ℤ) :
    (positionManagement s p m).1 = s ∨
      ∃ r, (positionManagement s p m).2 = .ok { action := .CLOSE, reason := .exitClose r } := by
  unfold positionManagement
  split
  · exact Or.inl rfl
  · next r heq => exact Or.inr ⟨r, rfl⟩
  · exact Or.inl rfl

/-- The post-breaker phase either leaves the state untouched or
returns an exit-evaluator close. -/
theorem decideRest_char (sq : ℚ → ℚ) (s : DailyState) (pos : Option PositionD)
    (b : ℚ) (ml md : ℤ) (d : Snapshot) :
    (decideRest sq s pos b ml md d).1 = s ∨
      ∃ r, (decideRest sq s pos b ml md d).2 = .ok { action := .CLOSE, reason := .exitClose r } := by
  unfold decideRest
  dsimp only
  split_ifs <;> try exact Or.inl rfl
  split
  · split
    · exact positionManagement_char _ _ _
    · exact Or.inl (entryDecision_fst _ _ _ _)
  · exact Or.inl (entryDecision_fst _ _ _ _)

/-- Frame analysis of the post-breaker phase, given the frame facts
established for the state the breakers hand it. -/
theorem c9_rest_aux (sq : ℚ → ℚ) (s s3 : DailyState) (pos : Option PositionD)
    (b : ℚ) (ml md : ℤ) (d : Snapshot)
    (hfel : frameEqExceptLosses s s3)
    (hlc : lossesPreservedOrCooldown s s3) :
    (∀ dec, (decideRest sq s3 pos b ml md d).2 = .ok dec → isBreakerClose dec.reason →
      frameEqExceptLosses s (decideRest sq s3 pos b ml md d).1 ∧
        lossesPreservedOrCooldown s (decideRest sq s3 pos b ml md d).1) ∧
    (¬ frameEq s (decideRest sq s3 pos b ml md d).1 →
      (∃ r, (decideRest sq s3 pos b ml md d).2 = .ok { action := .CLOSE, reason := .exitClose r }) ∨
        (3 ≤ s.consecutive_losses ∧ (decideRest sq s3 pos b ml md d).1.consecutive_losses = 0 ∧
          frameEqExceptLosses s (decideRest sq s3 pos b ml md d).1)) := by
  rcases decideRest_char sq s3 pos b ml md d with hst | ⟨r, hr⟩
  · constructor
    · intro dec _ _
      rw [hst]
      exact ⟨hfel, hlc⟩
    · intro hne
      rw [hst] at hne
      rcases hlc with hl | ⟨h3, h0⟩
      · exact absurd ⟨hfel.1, hfel.2.1, hl, hfel.2.2.1, hfel.2.2.2.1, hfel.2.2.2.2⟩ hne
      · right
        rw [hst]
        exact ⟨h3, h0, hfel⟩
  · constructor
    · intro dec hok hbr
      rw [hr] at hok
      simp only [Except.ok.injEq] at hok
      subst hok
      rcases hbr with h | h | h | h | h <;> exact Reason.noConfusion h
    · intro _
      exact Or.inl ⟨r, hr⟩

/-- The C9 frame property of one decision call's output, relative to
the pre-call state. -/
def c9Prop (s : DailyState) (out : DailyState × Except PyErr Decision) : Prop :=
  (∀ dec, out.2 = .ok dec → isBreakerClose dec.reason →
    frameEqExceptLosses s out.1 ∧ lossesPreservedOrCooldown s out.1) ∧
  (¬ frameEq s out.1 →
    (∃ r, out.2 = .ok { action := .CLOSE, reason := .exitClose r }) ∨
      (3 ≤ s.consecutive_losses ∧ out.1.consecutive_losses = 0 ∧
        frameEqExceptLosses s out.1))

/-- The cooldown expiry either preserves the loss streak or zeroes a
streak of at least 3. -/
theorem lossesPreservedOrCooldown_expire (s t : DailyState)
    (hl : t.consecutive_losses = s.consecutive_losses) :
    lossesPreservedOrCooldown s (expire_cooldown t) := by
  unfold lossesPreservedOrCooldown expire_cooldown
  split
  · next h3 => exact Or.inr ⟨hl ▸ h3, rfl⟩
  · exact Or.inl hl

/-- Case walk establishing the C9 frame property for every call. -/
theorem decide_action_c9Prop (sq : ℚ → ℚ) (s : DailyState) (d : Snapshot) :
    c9Prop s (decide_action sq s d) := by
  unfold decide_action
  dsimp only
  split_ifs <;>
    first
      | (constructor
         · intro dec hok _
           exact Except.noConfusion hok
         · intro hne
           exact absurd ⟨by simp, by simp, by simp, by simp, by simp, by simp⟩ hne)
      | (constructor
         · intro dec hok _
           simp only [Except.ok.injEq] at hok
           subst hok
           exact ⟨⟨by simp, by simp, by simp, by simp, by simp⟩, Or.inl (by simp)⟩
         · intro hne
           exact absurd ⟨by simp, by simp, by simp, by simp, by simp, by simp⟩ hne)
      | exact c9_rest_aux sq s _ _ _ _ _ d ⟨by simp, by simp, by simp, by simp, by simp⟩
          (lossesPreservedOrCooldown_expire s _ (by simp))

/-- C9 (amended): a circuit-breaker CLOSE leaves trades_today,
consecutive_wins, last_trade_minute, winning_trades and losing_trades
unchanged, and leaves consecutive_losses unchanged except that the
cooldown expiry (streak ≥ 3, 30 minutes elapsed) may have zeroed it
before the drawdown, end-of-day, or profit-lock breaker ran; any other
change to those fields comes from an exit-evaluator close. -/
theorem c9_breaker_close_frame (sq : ℚ → ℚ) (s : DailyState) (d : Snapshot) :
    (∀ dec, (decide_action sq s d).2 = .ok dec → isBreakerClose dec.reason →
      frameEqExceptLosses s (decide_action sq s d).1 ∧
        lossesPreservedOrCooldown s (decide_action sq s d).1) ∧
    (¬ frameEq s (decide_action sq s d).1 →
      (∃ r, (decide_action sq s d).2 = .ok { action := .CLOSE, reason := .exitClose r }) ∨
        (3 ≤ s.consecutive_losses ∧ (decide_action sq s d).1.consecutive_losses = 0 ∧
          frameEqExceptLosses s (decide_action sq s d).1)) :=
  decide_action_c9Prop sq s d

/-- A state on a 3-loss streak whose cooldown has expired by minute
40. -/
def c9state : DailyState :=
  { daily_state with consecutive_losses := 3, last_trade_minute := 0 }

/-- Snapshot with an open position, balance 700 (30% below the peak
1000), at minute 40: the drawdown breaker forces a CLOSE. -/
def c9snap : Snapshot :=
  { position := some { is_open := some true, unrealized_pnl_pct := some (-1), leverage := some 2 }
    account := some { balance := some 700 }
    minute_of_day := some 40
    minutes_remaining := some 500 }

/-- C9 counterexample: a drawdown-protection CLOSE does not leave
consecutive_losses unchanged — the cooldown expiry zeroed the 3-loss
streak earlier in the same call. -/
theorem c9_counterexample :
    (decide_action sqZero c9state c9snap).2 =
        .ok { action := .CLOSE, reason := .drawdownClose } ∧
      c9state.consecutive_losses = 3 ∧
      (decide_action sqZero c9state c9snap).1.consecutive_losses = 0 := by
  decide

/-- A state at the trade limit. -/
def c9wstate : DailyState := { daily_state with trades_today := 30 }

/-- A snapshot with an open position and defaults elsewhere. -/
def c9wsnap : Snapshot := { position := some { is_open := some true } }

/-- C9 witness: the max-trades CLOSE leaves the frame fields of the
session state unchanged. -/
theorem c9_breaker_close_frame_witness :
    frameEqExceptLosses c9wstate (decide_action sqZero c9wstate c9wsnap).1 ∧
      lossesPreservedOrCooldown c9wstate (decide_action sqZero c9wstate c9wsnap).1 :=
  (c9_breaker_close_frame sqZero c9wstate c9wsnap).1
    { action := .CLOSE, reason := .maxTradesClose } (by decide) (Or.inr (Or.inl rfl))

/-! ## Idempotence claim (C6) -/

/-- After a peak update the peak is no longer below the balance. -/
theorem update_peak_not_lt (s : DailyState) (b : ℚ) :
    ¬ (update_peak s b).peak_balance < b := by
  unfold update_peak
  split
  · simp
  · next h => simpa using h

/-- A peak update is the identity when the peak is not below the
balance. -/
theorem update_peak_eq_self (t : DailyState) (b : ℚ) (h : ¬ t.peak_balance < b) :
    update_peak t b = t := by
  unfold update_peak
  rw [if_neg h]

/-- The arm step is the identity on a state whose lock is already
armed. -/
theorem arm_profit_lock_eq_self (t : DailyState) (l : ℚ) (h : t.profit_locked = true) :
    arm_profit_lock t l = t := by
  unfold arm_profit_lock
  rw [if_neg]
  intro hc
  rw [h] at hc
  exact absurd hc.2 (by simp)

/-- The arm step is the identity when the gain is at most 40%. -/
theorem arm_profit_lock_eq_self_of_not_lt (t : DailyState) (l : ℚ) (h : ¬ (40 : ℚ) < l) :
    arm_profit_lock t l = t := by
  unfold arm_profit_lock
  rw [if_neg (fun hc => h hc.1)]

/-- When the gain exceeds 40%, the profit lock is armed after the arm
step. -/
theorem arm_locked_of_lt (t : DailyState) (l : ℚ) (h : (40 : ℚ) < l) :
    (arm_profit_lock t l).profit_locked = true := by
  unfold arm_profit_lock
  split_ifs with h1
  · rfl
  · have h2 : ¬ t.profit_locked = false := fun hf => h1 ⟨h, hf⟩
    simpa using h2

/-- Arming the profit lock twice with the same loss percentage is the
same as arming it once. -/
theorem arm_profit_lock_fix (t : DailyState) (l : ℚ) :
    arm_profit_lock (arm_profit_lock t l) l = arm_profit_lock t l := by
  by_cases hl : (40 : ℚ) < l
  · exact arm_profit_lock_eq_self _ _ (arm_locked_of_lt t l hl)
  · exact arm_profit_lock_eq_self_of_not_lt _ _ hl

/-- Arming the lock after a cooldown expiry of an armed state is the
identity. -/
theorem arm_after_expire_fix (t : DailyState) (l : ℚ) :
    arm_profit_lock (expire_cooldown (arm_profit_lock t l)) l
      = expire_cooldown (arm_profit_lock t l) := by
  by_cases hl : (40 : ℚ) < l
  · apply arm_profit_lock_eq_self
    rw [expire_cooldown_profit_locked, arm_locked_of_lt t l hl]
  · exact arm_profit_lock_eq_self_of_not_lt _ _ hl

/-- The loss streak is always below 3 after a cooldown expiry. -/
theorem expire_losses_lt3 (t : DailyState) :
    (expire_cooldown t).consecutive_losses < 3 := by
  unfold expire_cooldown
  split
  · exact Nat.zero_lt_succ 2
  · next h => exact Nat.lt_of_not_le h

/-- The cooldown expiry is the identity below a streak of 3. -/
theorem expire_cooldown_eq_self (t : DailyState) (h : t.consecutive_losses < 3) :
    expire_cooldown t = t := by
  unfold expire_cooldown
  rw [if_neg (Nat.not_le.mpr h)]

/-- Expiring the cooldown twice is the same as expiring it once. -/
theorem expire_cooldown_fix (t : DailyState) :
    expire_cooldown (expire_cooldown t) = expire_cooldown t :=
  expire_cooldown_eq_self _ (expire_losses_lt3 t)

/-- With no open position the post-breaker phase never mutates the
session state. -/
theorem decideRest_fst_noopen (sq : ℚ → ℚ) (s : DailyState) (pos : Option PositionD)
    (b : ℚ) (ml md : ℤ) (d : Snapshot) (hopen : posOpen pos = false) :
    (decideRest sq s pos b ml md d).1 = s := by
  unfold decideRest
  dsimp only
  cases pos with
  | none =>
    split_ifs <;> try rfl
    exact entryDecision_fst _ _ _ _
  | some p =>
    have hp : p.is_open.getD false = false := hopen
    simp only [hp, Bool.false_eq_true, if_false]
    split_ifs <;> try rfl
    exact entryDecision_fst _ _ _ _

/-- With no open position a decision call is idempotent: running
`decide_action` again from the state the first call produced yields
the same state and the same decision. -/
theorem decide_action_fix (sq : ℚ → ℚ) (s : DailyState) (d : Snapshot)
    (hopen : posOpen d.position = false) :
    decide_action sq (decide_action sq s d).1 d = decide_action sq s d := by
  unfold decide_action
  dsimp only
  by_cases h0 : (update_peak s (snapBalance d)).balance_at_start = 0
  · simp only [if_pos h0]
    rw [update_peak_eq_self _ _ (update_peak_not_lt s (snapBalance d))]
    rw [if_pos h0]
  · simp only [if_neg h0]
    by_cases h1 : (snapBalance d - (update_peak s (snapBalance d)).balance_at_start) /
        (update_peak s (snapBalance d)).balance_at_start * 100 < -40
    · simp only [if_pos h1, hopen, Bool.false_eq_true, if_false]
      rw [update_peak_eq_self _ _ (update_peak_not_lt s (snapBalance d))]
      simp only [if_neg h0, if_pos h1, hopen, Bool.false_eq_true, if_false]
    · simp only [if_neg h1]
      by_cases h2 : (arm_profit_lock (update_peak s (snapBalance d))
            ((snapBalance d - (update_peak s (snapBalance d)).balance_at_start) /
              (update_peak s (snapBalance d)).balance_at_start * 100)).max_daily_trades ≤
          (arm_profit_lock (update_peak s (snapBalance d))
            ((snapBalance d - (update_peak s (snapBalance d)).balance_at_start) /
              (update_peak s (snapBalance d)).balance_at_start * 100)).trades_today
      · simp only [if_pos h2, hopen, Bool.false_eq_true, if_false]
        have hpk : ¬ (arm_profit_lock (update_peak s (snapBalance d))
            ((snapBalance d - (update_peak s (snapBalance d)).balance_at_start) /
              (update_peak s (snapBalance d)).balance_at_start * 100)).peak_balance <
            snapBalance d := by
          rw [arm_profit_lock_peak_balance]
          exact update_peak_not_lt s (snapBalance d)
        rw [update_peak_eq_self _ _ hpk]
        simp only [arm_profit_lock_balance_at_start]
        rw [if_neg h0]
        simp only [if_neg h1]
        rw [arm_profit_lock_fix]
        simp only [if_pos h2, hopen, Bool.false_eq_true, if_false]
      · simp only [if_neg h2]
        by_cases h3 : 3 ≤ (arm_profit_lock (update_peak s (snapBalance d))
              ((snapBalance d - (update_peak s (snapBalance d)).balance_at_start) /
                (update_peak s (snapBalance d)).balance_at_start * 100)).consecutive_losses ∧
            d.minute_of_day.getD 0 - (arm_profit_lock (update_peak s (snapBalance d))
              ((snapBalance d - (update_peak s (snapBalance d)).balance_at_start) /
                (update_peak s (snapBalance d)).balance_at_start * 100)).last_trade_minute < 30
        · simp only [if_pos h3]
          have hpk : ¬ (arm_profit_lock (update_peak s (snapBalance d))
              ((snapBalance d - (update_peak s (snapBalance d)).balance_at_start) /
                (update_peak s (snapBalance d)).balance_at_start * 100)).peak_balance <
              snapBalance d := by
            rw [arm_profit_lock_peak_balance]
            exact update_peak_not_lt s (snapBalance d)
          rw [update_peak_eq_self _ _ hpk]
          simp only [arm_profit_lock_balance_at_start]
          rw [if_neg h0]
          simp only [if_neg h1]
          rw [arm_profit_lock_fix]
          simp only [if_neg h2, if_pos h3]
        · simp only [if_neg h3]
          rw [decideRest_fst_noopen sq _ _ _ _ _ d hopen]
          have hpk : ¬ (expire_cooldown (arm_profit_lock (update_peak s (snapBalance d))
              ((snapBalance d - (update_peak s (snapBalance d)).balance_at_start) /
                (update_peak s (snapBalance d)).balance_at_start * 100))).peak_balance <
              snapBalance d := by
            rw [expire_cooldown_peak_balance, arm_profit_lock_peak_balance]
            exact update_peak_not_lt s (snapBalance d)
          rw [update_peak_eq_self _ _ hpk]
          simp only [expire_cooldown_balance_at_start, arm_profit_lock_balance_at_start]
          rw [if_neg h0]
          simp only [if_neg h1]
          rw [arm_after_expire_fix]
          have h2' : ¬ (expire_cooldown (arm_profit_lock (update_peak s (snapBalance d))
              ((snapBalance d - (update_peak s (snapBalance d)).balance_at_start) /
                (update_peak s (snapBalance d)).balance_at_start * 100))).max_daily_trades ≤
              (expire_cooldown (arm_profit_lock (update_peak s (snapBalance d))
              ((snapBalance d - (update_peak s (snapBalance d)).balance_at_start) /
                (update_peak s (snapBalance d)).balance_at_start * 100))).trades_today := by
            simpa only [expire_cooldown_max_daily_trades, expire_cooldown_trades_today] using h2
          rw [if_neg h2']
          have h3' : ¬ (3 ≤ (expire_cooldown (arm_profit_lock (update_peak s (snapBalance d))
              ((snapBalance d - (update_peak s (snapBalance d)).balance_at_start) /
                (update_peak s (snapBalance d)).balance_at_start * 100))).consecutive_losses ∧
              d.minute_of_day.getD 0 - (expire_cooldown (arm_profit_lock (update_peak s (snapBalance d))
              ((snapBalance d - (update_peak s (snapBalance d)).balance_at_start) /
                (update_peak s (snapBalance d)).balance_at_start * 100))).last_trade_minute < 30) :=
            fun hc => absurd hc.1 (Nat.not_le.mpr (expire_losses_lt3 _))
          rw [if_neg h3']
          rw [expire_cooldown_fix]

/-- C6: two consecutive decision calls on the same snapshot with no
open position yield identical decisions — the first call's mutations
(peak raise, profit-lock arming, cooldown reset) are idempotent and
never change the second call's branch. -/
theorem c6_idempotent (sq : ℚ → ℚ) (s : DailyState) (d : Snapshot)
    (hopen : posOpen d.position = false) :
    (decide_action sq (decide_action sq s d).1 d).2 = (decide_action sq s d).2 := by
  rw [decide_action_fix sq s d hopen]

/-- C6 witness: the day-2 minute-10 snapshot with no position produces
the same decision on consecutive calls from the initial state. -/
theorem c6_idempotent_witness :
    (decide_action sqZero (decide_action sqZero daily_state c2snap).1 c2snap).2 =
      (decide_action sqZero daily_state c2snap).2 :=
  c6_idempotent sqZero daily_state c2snap (by decide)

/-! ## No-throw claim (C1) -/

/-- A snapshot whose only market-data entry lacks the change_24h_pct
key while its ticker qualifies and has 60 candles of history. -/
def c1snap : Snapshot :=
  { market_data := [("A", { change_24h_pct := none })]
    history := [("A", exCandles)]
    qualifying_tickers := some ["A"]
    minute_of_day := some 100
    minutes_remaining := some 400 }

/-- C1 counterexample: on a snapshot whose qualifying ticker has 60
candles of history but whose market_data entry lacks change_24h_pct,
`decide_action` does not return a decision — the screener's bare
subscript raises `KeyError`. -/
theorem c1_counterexample :
    (decide_action sqZero daily_state c1snap).2 = .error .keyError := by
  decide

/-- The screener analysis returns normally whenever the ticker's
market_data entry has change_24h_pct or its history is shorter than
60 candles. -/
theorem analyze_ticker_ok (sq : ℚ → ℚ) (t : String) (info : MarketInfo)
    (hist : List (String × List Candle))
    (h60 : 60 ≤ ((hist.lookup t).getD []).length → info.change_24h_pct ≠ none) :
    ∃ o, analyze_ticker sq t info hist = .ok o := by
  unfold analyze_ticker
  dsimp only
  split_ifs with hlen
  · exact ⟨none, rfl⟩
  · have hc := h60 (le_of_not_lt hlen)
    match hinfo : info.change_24h_pct with
    | none => exact absurd hinfo hc
    | some change => exact ⟨_, rfl⟩

/-- The candidate gathering loop returns normally when every
qualifying ticker present in market_data with 60 candles of history
has the change_24h_pct key. -/
theorem gatherCandidates_ok (sq : ℚ → ℚ) (md : List (String × MarketInfo))
    (q : List String) (hist : List (String × List Candle))
    (hmd : ∀ t info, t ∈ q → md.lookup t = some info →
      60 ≤ ((hist.lookup t).getD []).length → info.change_24h_pct ≠ none) :
    ∃ l, gatherCandidates sq md q hist = .ok l := by
  induction q with
  | nil => exact ⟨[], rfl⟩
  | cons t rest ih =>
    have ihr := ih (fun u info hu => hmd u info (List.mem_cons_of_mem t hu))
    unfold gatherCandidates
    match hl : md.lookup t with
    | none => exact ihr
    | some info =>
      obtain ⟨o, ho⟩ := analyze_ticker_ok sq t info hist
        (hmd t info (List.mem_cons_self _ _) hl)
      dsimp only
      rw [ho]
      match o with
      | none => exact ihr
      | some a =>
        obtain ⟨l, hrec⟩ := ihr
        dsimp only
        rw [hrec]
        exact ⟨a :: l, rfl⟩

/-- Candidate selection returns normally under the same condition. -/
theorem select_best_entry_ok (sq : ℚ → ℚ) (md : List (String × MarketInfo))
    (q : List String) (hist : List (String × List Candle))
    (hmd : ∀ t info, t ∈ q → md.lookup t = some info →
      60 ≤ ((hist.lookup t).getD []).length → info.change_24h_pct ≠ none) :
    ∃ o, select_best_entry sq md q hist = .ok o := by
  obtain ⟨l, hg⟩ := gatherCandidates_ok sq md q hist hmd
  unfold select_best_entry
  rw [hg]
  match l with
  | [] => exact ⟨none, rfl⟩
  | c :: rest =>
    dsimp only
    split_ifs <;> exact ⟨_, rfl⟩

/-- The position sizer returns normally whenever the start-of-day
balance is nonzero. -/
theorem calculate_position_size_ok (a : TickerAnalysis) (b : ℚ) (s : DailyState)
    (hbas : s.balance_at_start ≠ 0) :
    ∃ v, calculate_position_size a b s = .ok v := by
  unfold calculate_position_size
  dsimp only
  rw [if_neg hbas]
  exact ⟨_, rfl⟩

/-- The exit evaluator returns normally whenever the (defaulted)
leverage is nonzero. -/
theorem should_close_position_ok (p : PositionD) (hlev : p.leverage.getD 1 ≠ 0) :
    ∃ v, should_close_position p none = .ok v := by
  unfold should_close_position
  dsimp only
  split_ifs with h1 h2 h3 <;> exact ⟨_, rfl⟩

/-- The entry section returns normally under the market-data and
balance conditions. -/
theorem entryDecision_ok (sq : ℚ → ℚ) (s : DailyState) (b : ℚ) (d : Snapshot)
    (hbas : s.balance_at_start ≠ 0)
    (hmd : ∀ t info, t ∈ d.qualifying_tickers.getD [] →
      d.market_data.lookup t = some info →
      60 ≤ ((d.history.lookup t).getD []).length → info.change_24h_pct ≠ none) :
    ∃ dec, (entryDecision sq s b d).2 = .ok dec := by
  unfold entryDecision
  dsimp only
  split_ifs <;> try exact ⟨_, rfl⟩
  obtain ⟨o, ho⟩ := select_best_entry_ok sq d.market_data (d.qualifying_tickers.getD [])
    d.history hmd
  rw [ho]
  match o with
  | none => exact ⟨_, rfl⟩
  | some entry =>
    obtain ⟨⟨lv, sz⟩, hv⟩ := calculate_position_size_ok entry b s hbas
    dsimp only
    rw [hv]
    exact ⟨_, rfl⟩

/-- Position management returns normally whenever the open position's
leverage is nonzero. -/
theorem positionManagement_ok (s : DailyState) (p : PositionD) (m : ℤ)
    (hlev : p.leverage.getD 1 ≠ 0) :
    ∃ dec, (positionManagement s p m).2 = .ok dec := by
  obtain ⟨⟨b, r⟩, hok⟩ := should_close_position_ok p hlev
  unfold positionManagement
  rw [hok]
  match b with
  | true => exact ⟨_, rfl⟩
  | false => exact ⟨_, rfl⟩

/-- The post-breaker phase returns normally under the peak, leverage
and market-data conditions. -/
theorem decideRest_ok (sq : ℚ → ℚ) (s : DailyState) (b : ℚ) (ml md : ℤ) (d : Snapshot)
    (hpk : s.peak_balance ≠ 0)
    (hbas : s.balance_at_start ≠ 0)
    (hlev : ∀ p, d.position = some p → p.is_open.getD false = true → p.leverage.getD 1 ≠ 0)
    (hmd : ∀ t info, t ∈ d.qualifying_tickers.getD [] →
      d.market_data.lookup t = some info →
      60 ≤ ((d.history.lookup t).getD []).length → info.change_24h_pct ≠ none) :
    ∃ dec, (decideRest sq s d.position b ml md d).2 = .ok dec := by
  unfold decideRest
  dsimp only
  rw [if_neg hpk]
  split_ifs <;> try exact ⟨_, rfl⟩
  match hpos : d.position with
  | none => exact entryDecision_ok sq s b d hbas hmd
  | some p =>
    dsimp only
    by_cases hio : p.is_open.getD false = true
    · rw [if_pos hio]
      exact positionManagement_ok s p md (hlev p hpos hio)
    · rw [if_neg hio]
      exact entryDecision_ok sq s b d hbas hmd

/-- The peak stays positive through the peak update. -/
theorem update_peak_pos (s : DailyState) (b : ℚ) (h : 0 < s.peak_balance) :
    0 < (update_peak s b).peak_balance := by
  unfold update_peak
  split
  · next hlt => exact lt_trans h hlt
  · exact h

/-- C1 (amended): `decide_action` returns a decision and never raises
whenever the session's start-of-day balance is nonzero, its peak
balance is positive, any open position has nonzero (defaulted)
leverage, and every qualifying ticker present in market_data with at
least 60 candles of history carries the change_24h_pct key; missing
balance defaults to 1000 and a missing position is treated as closed,
but the per-ticker change_24h_pct read is a hard key lookup, not a
defaulted one. -/
theorem c1_no_throw (sq : ℚ → ℚ) (s : DailyState) (d : Snapshot)
    (hbas : s.balance_at_start ≠ 0)
    (hpk : 0 < s.peak_balance)
    (hlev : ∀ p, d.position = some p → p.is_open.getD false = true → p.leverage.getD 1 ≠ 0)
    (hmd : ∀ t info, t ∈ d.qualifying_tickers.getD [] →
      d.market_data.lookup t = some info →
      60 ≤ ((d.history.lookup t).getD []).length → info.change_24h_pct ≠ none) :
    ∃ dec, (decide_action sq s d).2 = .ok dec := by
  unfold decide_action
  dsimp only
  split_ifs with h0 <;> try exact ⟨_, rfl⟩
  · rw [update_peak_balance_at_start] at h0
    exact absurd h0 hbas
  · apply decideRest_ok
    · rw [expire_cooldown_peak_balance, arm_profit_lock_peak_balance]
      exact ne_of_gt (update_peak_pos s _ hpk)
    · rw [expire_cooldown_balance_at_start, arm_profit_lock_balance_at_start,
        update_peak_balance_at_start]
      exact hbas
    · exact hlev
    · exact hmd

/-- C1 witness: a well-formed early-minute snapshot yields a decision
from the initial state. -/
theorem c1_no_throw_witness :
    ∃ dec, (decide_action sqZero daily_state c2snap).2 = .ok dec :=
  c1_no_throw sqZero daily_state c2snap (by decide) (by decide)
    (fun p hp => Option.noConfusion hp)
    (fun t info ht _ _ => absurd ht (List.not_mem_nil t))
